import Mathlib

/-!
Verification of the classification scoring engine and the pairwise
bias-mitigated comparator of the `agentv` example suite.

Embedded sources:
* `examples/showcase/export-screening/evals/compute_confusion_matrix.py`
* `examples/showcase/export-screening/evals/ci_check.py`
* `examples/showcase/tool-evaluation-plugins/scripts/pairwise_tool_compare.py`

Conventions of the shallow embedding:
* Python floats are modelled by `ℚ`.  `round(x, 4)` is modelled by exact
  round-half-to-even at 4 decimal places (`round4`); the code's literal
  `1.2` length-ratio is modelled by the exact ratio 6/5 (for natural string
  lengths `len_a > len_b * 1.2` is the integer comparison
  `5 * len_a > 6 * len_b`; the IEEE double `1.2` differs from 6/5 by less
  than one part in 2^52, which cannot change the comparison for any
  realistic length).
* Python `None` becomes `Option.none`; a `dict` key that may be missing
  becomes an `Option` field; code that can raise returns `Except String`.
* `re` patterns are embedded by a specialised backtracking matcher for the
  one pattern the code uses, with `\w` restricted to ASCII word characters
  (the inputs the code parses are ASCII).
-/

/-- The closed class set of the export-screening task
(`CLASSES = ["Low", "Medium", "High"]`). -/
inductive RClass where
  | Low
  | Medium
  | High
deriving DecidableEq, Repr

/-- The class list in source order. -/
def classList : List RClass := [RClass.Low, RClass.Medium, RClass.High]

/-- `CLASSES` as the literal list of label strings. -/
def CLASSES : List String := ["Low", "Medium", "High"]

/-- Decode a label string into the closed class set; `none` exactly when the
string is not a member of `CLASSES`. -/
def classOfString (s : String) : Option RClass :=
  if s = "Low" then some RClass.Low
  else if s = "Medium" then some RClass.Medium
  else if s = "High" then some RClass.High
  else none

/-- One evaluation result record: the `hits` / `misses` string lists read by
`parse_classification_from_result`. -/
structure EvalResult where
  hits : List String
  misses : List String
deriving DecidableEq, Repr

/-- `\w` of the source pattern, restricted to ASCII. -/
def isWordChar (c : Char) : Bool := c.isAlphanum || c == '_'

/-- Match the tail `,?\s*Expected=(\w+)` of the pattern
`AI=(\w+),?\s*Expected=(\w+)` against `l`, returning group 2.
Both `,?` and `\s*` are deterministic here: a comma is neither whitespace
nor the letter `E`, so taking them greedily is the only way to proceed. -/
def matchExpectedTail (l : List Char) : Option String :=
  let l1 := match l with
    | ',' :: t => t
    | _ => l
  let l2 := l1.dropWhile (fun c => c.isWhitespace)
  if (("Expected=").data).isPrefixOf l2 then
    let g2 := (l2.drop 9).takeWhile isWordChar
    if g2.isEmpty then none else some (String.mk g2)
  else none

/-- Backtracking for the greedy group 1 `(\w+)`: `run` is the maximal word
character run after `AI=`, `rest` the input after it; try group-1 lengths
from `k` down to 1, as the regex engine does. -/
def pickGroup1 (run rest : List Char) : Nat → Option (String × String)
  | 0 => none
  | k + 1 =>
    match matchExpectedTail (run.drop (k + 1) ++ rest) with
    | some g2 => some (String.mk (run.take (k + 1)), g2)
    | none => pickGroup1 run rest k

/-- Try to match `AI=(\w+),?\s*Expected=(\w+)` at the start of `l`. -/
def matchAIAt (l : List Char) : Option (String × String) :=
  if (("AI=").data).isPrefixOf l then
    let l1 := l.drop 3
    let run := l1.takeWhile isWordChar
    pickGroup1 run (l1.drop run.length) run.length
  else none

/-- Leftmost search, as `re.search`: try every start position left to
right. -/
def searchFrom : List Char → Option (String × String)
  | [] => none
  | c :: t =>
    match matchAIAt (c :: t) with
    | some p => some p
    | none => searchFrom t

/-- `comparison_pattern.search(s)`, returning `(group 1, group 2)` =
`(ai_class, expected_class)`. -/
def searchAIExpected (s : String) : Option (String × String) :=
  searchFrom s.data

/-- `parse_classification_from_result`: misses are scanned first, then hits,
for the comparison pattern; the first match wins and the function returns at
once.  If nothing matched anywhere, the hits are scanned for a leading
`riskLevel=` marker, recovering only the predicted label.  The function is
total: no pattern at all yields `(none, none)`. -/
def parse_classification_from_result (r : EvalResult) :
    Option String × Option String :=
  match r.misses.findSome? searchAIExpected with
  | some (ai, ex) => (some ai, some ex)
  | none =>
    match r.hits.findSome? searchAIExpected with
    | some (ai, ex) => (some ai, some ex)
    | none =>
      match r.hits.find? (fun h => h.startsWith ("riskLevel=")) with
      | some hit => (some ((hit.splitOn ("=")).getD 1 ""), none)
      | none => (none, none)

/-- The confusion matrix: a count for every (expected, predicted) cell of
the closed class set.  The Python dict literal creates every cell up front
with value 0, so a total function over `RClass` is the faithful shape. -/
abbrev ConfusionMatrix := RClass → RClass → Nat

/-- The all-zero initial matrix. -/
def emptyMatrix : ConfusionMatrix := fun _ _ => 0

/-- `matrix[expected_class][ai_class] += 1`. -/
def bump (m : ConfusionMatrix) (e p : RClass) : ConfusionMatrix :=
  fun e2 p2 => if e2 = e ∧ p2 = p then m e2 p2 + 1 else m e2 p2

/-- The body of the `for result in results` loop of
`build_confusion_matrix`. -/
def recordStep (m : ConfusionMatrix) (r : EvalResult) : ConfusionMatrix :=
  match parse_classification_from_result r with
  | (some ai_class, some expected_class) =>
    -- Python truthiness gate `if ai_class and expected_class:`
    if ai_class ≠ "" ∧ expected_class ≠ "" then
      -- `if expected_class in CLASSES and ai_class in CLASSES:`
      match classOfString expected_class, classOfString ai_class with
      | some e, some p => bump m e p
      | _, _ => m
    else m
  | _ => m

/-- `build_confusion_matrix`. -/
def build_confusion_matrix (results : List EvalResult) : ConfusionMatrix :=
  results.foldl recordStep emptyMatrix

/-- Round-half-to-even to an integer, the rounding of Python `round`. -/
def roundHalfEven (q : ℚ) : ℤ :=
  let f := Int.floor q
  let r := q - f
  if r < 1 / 2 then f
  else if 1 / 2 < r then f + 1
  else if f % 2 = 0 then f else f + 1

/-- `round(x, 4)`. -/
def round4 (q : ℚ) : ℚ := (roundHalfEven (q * 10000) : ℚ) / 10000

/-- `TP = matrix[c][c]`. -/
def tpOf (m : ConfusionMatrix) (c : RClass) : Nat := m c c

/-- `FP = sum(matrix[actual][c] for actual in CLASSES if actual != c)`. -/
def fpOf (m : ConfusionMatrix) (c : RClass) : Nat :=
  ((classList.filter (fun a => a ≠ c)).map (fun a => m a c)).sum

/-- `FN = sum(matrix[c][predicted] for predicted in CLASSES if predicted != c)`. -/
def fnOf (m : ConfusionMatrix) (c : RClass) : Nat :=
  ((classList.filter (fun p => p ≠ c)).map (fun p => m c p)).sum

/-- `precision = tp / (tp + fp) if (tp + fp) > 0 else 0.0`, before output
rounding. -/
def precisionRaw (m : ConfusionMatrix) (c : RClass) : ℚ :=
  if 0 < tpOf m c + fpOf m c then
    (tpOf m c : ℚ) / ((tpOf m c : ℚ) + (fpOf m c : ℚ))
  else 0

/-- `recall = tp / (tp + fn) if (tp + fn) > 0 else 0.0`, before output
rounding. -/
def recallRaw (m : ConfusionMatrix) (c : RClass) : ℚ :=
  if 0 < tpOf m c + fnOf m c then
    (tpOf m c : ℚ) / ((tpOf m c : ℚ) + (fnOf m c : ℚ))
  else 0

/-- `f1 = 2·p·r/(p+r) if (p+r) > 0 else 0.0`, computed from the unrounded
precision and recall, before output rounding. -/
def f1Raw (m : ConfusionMatrix) (c : RClass) : ℚ :=
  if 0 < precisionRaw m c + recallRaw m c then
    2 * precisionRaw m c * recallRaw m c / (precisionRaw m c + recallRaw m c)
  else 0

/-- The per-class record `compute_class_metrics` returns; precision, recall
and f1 carry the code's `round(·, 4)` output rounding. -/
structure ClassMetrics where
  truePositives : Nat
  falsePositives : Nat
  falseNegatives : Nat
  precision : ℚ
  «recall» : ℚ
  f1 : ℚ
deriving DecidableEq, Repr

/-- `compute_class_metrics`. -/
def compute_class_metrics (m : ConfusionMatrix) (c : RClass) : ClassMetrics :=
  { truePositives := tpOf m c
    falsePositives := fpOf m c
    falseNegatives := fnOf m c
    precision := round4 (precisionRaw m c)
    «recall» := round4 (recallRaw m c)
    f1 := round4 (f1Raw m c) }

/-- `support = truePositives + falseNegatives` of a per-class record. -/
def support (pcm : RClass → ClassMetrics) (c : RClass) : Nat :=
  (pcm c).truePositives + (pcm c).falseNegatives

/-- `active_classes`: the classes whose per-class record shows positive
support, in `CLASSES` order. -/
def activeClasses (pcm : RClass → ClassMetrics) : List RClass :=
  classList.filter (fun c => 0 < support pcm c)

/-- The macro-averaged record of `compute_overall_metrics`. -/
structure OverallMetrics where
  precision : ℚ
  «recall» : ℚ
  f1 : ℚ
deriving DecidableEq, Repr

/-- `compute_overall_metrics`: macro averages over `active_classes`, all
zero when no class has support. -/
def compute_overall_metrics (pcm : RClass → ClassMetrics) : OverallMetrics :=
  let active := activeClasses pcm
  if active = [] then { precision := 0, «recall» := 0, f1 := 0 }
  else
    { precision := round4 (((active.map (fun c => (pcm c).precision)).sum) / (active.length : ℚ))
      «recall» := round4 (((active.map (fun c => (pcm c).«recall»)).sum) / (active.length : ℚ))
      f1 := round4 (((active.map (fun c => (pcm c).f1)).sum) / (active.length : ℚ)) }

/-- Row sum of the matrix: the number of records whose expected label is
`c` (the count of actual instances of `c`). -/
def rowSum (m : ConfusionMatrix) (c : RClass) : Nat :=
  (classList.map (fun p => m c p)).sum

/-- `correct = sum(matrix[cls][cls] for cls in CLASSES)`. -/
def diagSum (m : ConfusionMatrix) : Nat :=
  (classList.map (fun c => m c c)).sum

/-- `total`: the sum of every cell of the matrix. -/
def matrixTotal (m : ConfusionMatrix) : Nat :=
  (classList.map (fun e => rowSum m e)).sum

/-- `compute_accuracy`. -/
def compute_accuracy (m : ConfusionMatrix) : ℚ :=
  if 0 < matrixTotal m then round4 ((diagSum m : ℚ) / (matrixTotal m : ℚ))
  else 0

/-- The verdict record of `ci_check.check_threshold`.  The presentational
`message` string and the `metrics` echo field of the Python dict are not
modelled; every field a claim mentions is. -/
structure CheckResult where
  result : String
  checkedClass : String
  threshold : ℚ
  actualF1 : ℚ
  margin : ℚ
deriving DecidableEq, Repr

/-- `check_threshold`.  The `metricsPerClass` dict is modelled by an
association list from class name to the stored `f1` value (the only field
the function reads); a missing class, like a missing `f1` key, yields the
default `0.0`. -/
def check_threshold (metricsPerClass : List (String × ℚ))
    (check_class : String) (threshold : ℚ) : CheckResult :=
  let actual_f1 := (metricsPerClass.lookup check_class).getD 0
  let passed := threshold ≤ actual_f1
  { result := if passed then ("pass") else ("fail")
    checkedClass := check_class
    threshold := threshold
    actualF1 := actual_f1
    margin := round4 (actual_f1 - threshold) }

/-- The `metricsPerClass` JSON object the aggregator writes and
`ci_check` reads back, keyed by the class name strings. -/
def metricsPerClassOf (m : ConfusionMatrix) : List (String × ℚ) :=
  [("Low", (compute_class_metrics m RClass.Low).f1),
   ("Medium", (compute_class_metrics m RClass.Medium).f1),
   ("High", (compute_class_metrics m RClass.High).f1)]

/-- The ternary winner of one comparison pass. -/
inductive Winner where
  | A
  | B
  | TIE
deriving DecidableEq, Repr

/-- Winner names as the Python strings. -/
def winnerName : Winner → String
  | Winner.A => "A"
  | Winner.B => "B"
  | Winner.TIE => "TIE"

/-- The pass-2 remapping dict `{"A": "B", "B": "A", "TIE": "TIE"}.get(w, "TIE")`;
on the ternary type the default branch is unreachable. -/
def pass2_map : Winner → Winner
  | Winner.A => Winner.B
  | Winner.B => Winner.A
  | Winner.TIE => Winner.TIE

/-- One entry of a message's `toolCalls` list; `tool` may be missing. -/
structure ToolCall where
  tool : Option String
deriving DecidableEq, Repr

/-- One output message as read by `extract_tool_summary`. -/
structure Msg where
  role : String
  toolCalls : List ToolCall
deriving DecidableEq, Repr

/-- The summary dict of `extract_tool_summary`.  The early return for an
empty or absent message list omits the `"unique"` key, hence `unique` is an
`Option`; `list(set(tools))` is modelled by `tools.dedup`, whose length is
the number of distinct tools (the only use the code makes of it). -/
structure ToolSummary where
  tools : List String
  count : Nat
  unique : Option (List String)
deriving DecidableEq, Repr

/-- `extract_tool_summary`. -/
def extract_tool_summary (messages : List Msg) : ToolSummary :=
  if messages = [] then { tools := [], count := 0, unique := none }
  else
    let tools := messages.foldr (fun msg acc =>
      (if msg.role = "assistant" ∧ msg.toolCalls ≠ [] then
        msg.toolCalls.map (fun call => call.tool.getD ("unknown"))
      else []) ++ acc) []
    { tools := tools, count := tools.length, unique := some tools.dedup }

/-- `f"More efficient: {x} vs {y} tools"`. -/
def effMsg (x y : Nat) : String :=
  "More efficient: " ++ toString x ++ " vs " ++ toString y ++ " tools"

/-- `f"More diverse tools: {n} types"`. -/
def divMsg (n : Nat) : String :=
  "More diverse tools: " ++ toString n ++ " types"

/-- Check 1 of `compare_responses`: tool count efficiency.  Fewer non-zero
calls wins.  Returns (advantages of A, advantages of B). -/
def toolCountStep (ca cb : Nat) : List String × List String :=
  if ca < cb ∧ 0 < ca then ([effMsg ca cb], [])
  else if cb < ca ∧ 0 < cb then ([], [effMsg cb ca])
  else ([], [])

/-- Check 2: tool diversity — more distinct tool types wins.  `ua`, `ub` are
the lengths of the two `unique` lists. -/
def diversityStep (ua ub : Nat) : List String × List String :=
  if ub < ua then ([divMsg ua], [])
  else if ua < ub then ([], [divMsg ub])
  else ([], [])

/-- Check 3: response length; `len_a > len_b * 1.2` over natural lengths is
`5 * len_a > 6 * len_b` (see the header note on the float literal). -/
def lengthStep (la lb : Nat) : List String × List String :=
  if 6 * lb < 5 * la then (["More comprehensive response"], [])
  else if 6 * la < 5 * lb then ([], ["More comprehensive response"])
  else ([], [])

/-- Check 4: a side that used no tools while the other used some loses. -/
def noToolsStep (ca cb : Nat) : List String × List String :=
  if ca = 0 ∧ 0 < cb then ([], ["Response B used tools; A did not"])
  else if cb = 0 ∧ 0 < ca then (["Response A used tools; B did not"], [])
  else ([], [])

/-- The dict `compare_responses` returns. -/
structure CmpResult where
  winner : Winner
  a_advantages : List String
  b_advantages : List String
deriving DecidableEq, Repr

/-- `compare_responses`.  Accessing the `"unique"` key of a summary that
lacks it raises `KeyError` in Python (check 2 evaluates both sides before
any later check); that exception is the `Except.error` case.  Check 1 is
pure, so the exception is the only observable outcome when a `unique` key
is missing. -/
def compare_responses (response_a response_b : String)
    (tools_a tools_b : ToolSummary) (task : String) : Except String CmpResult :=
  match tools_a.unique, tools_b.unique with
  | some ua, some ub =>
    let s1 := toolCountStep tools_a.count tools_b.count
    let s2 := diversityStep ua.length ub.length
    let s3 := lengthStep response_a.length response_b.length
    let s4 := noToolsStep tools_a.count tools_b.count
    let aAdv := s1.1 ++ s2.1 ++ s3.1 ++ s4.1
    let bAdv := s1.2 ++ s2.2 ++ s3.2 ++ s4.2
    Except.ok
      { winner :=
          if bAdv.length < aAdv.length then Winner.A
          else if aAdv.length < bAdv.length then Winner.B
          else Winner.TIE
        a_advantages := aAdv
        b_advantages := bAdv }
  | _, _ => Except.error ("KeyError: unique")

/-- Every intermediate value of `pairwise_with_bias_mitigation` before its
output dict is assembled. -/
structure BiasOutcome where
  pass1 : CmpResult
  pass2 : CmpResult
  pass2Mapped : Winner
  consistent : Bool
  finalWinner : Winner
  confidence : String
  score : ℚ
deriving DecidableEq, Repr

/-- The two passes and the consistency check of
`pairwise_with_bias_mitigation`: pass 1 with candidate as A, pass 2 with
the roles swapped, pass 2's winner remapped, a forced TIE with low
confidence on disagreement, and the candidate-perspective score. -/
def bias_mitigation_core (candidate reference : String)
    (candidate_tools reference_tools : ToolSummary) (task : String) :
    Except String BiasOutcome :=
  match compare_responses candidate reference candidate_tools reference_tools task with
  | Except.error e => Except.error e
  | Except.ok pass1 =>
    match compare_responses reference candidate reference_tools candidate_tools task with
    | Except.error e => Except.error e
    | Except.ok pass2 =>
      let mapped := pass2_map pass2.winner
      let consistent : Bool := pass1.winner = mapped
      let finalWinner := if consistent then pass1.winner else Winner.TIE
      let confidence :=
        if consistent then ("high") else ("low (position bias detected)")
      let score : ℚ :=
        match finalWinner with
        | Winner.A => 1
        | Winner.B => 0
        | Winner.TIE => 1 / 2
      Except.ok
        { pass1 := pass1, pass2 := pass2, pass2Mapped := mapped,
          consistent := consistent, finalWinner := finalWinner,
          confidence := confidence, score := score }

/-- Python `str` of a bool. -/
def boolPy : Bool → String
  | true => "True"
  | false => "False"

/-- The JSON result dict of the plugin: score, capped advantage lists and a
reasoning string. -/
structure EvalOutput where
  score : ℚ
  hits : List String
  misses : List String
  reasoning : String
deriving DecidableEq, Repr

/-- `pairwise_with_bias_mitigation`: the output dict built from the core
run — score, the first 4 advantages of each side from pass 1, and the
reasoning line. -/
def pairwise_with_bias_mitigation (candidate reference : String)
    (candidate_tools reference_tools : ToolSummary) (task : String) :
    Except String EvalOutput :=
  match bias_mitigation_core candidate reference candidate_tools reference_tools task with
  | Except.error e => Except.error e
  | Except.ok b =>
    Except.ok
      { score := b.score
        hits := b.pass1.a_advantages.take 4
        misses := b.pass1.b_advantages.take 4
        reasoning :=
          "Pass 1: " ++ winnerName b.pass1.winner ++ " wins. Pass 2 (swapped): "
            ++ winnerName b.pass2.winner ++ " wins (maps to "
            ++ winnerName b.pass2Mapped ++ "). Consistency: "
            ++ boolPy b.consistent ++ ". Final: "
            ++ winnerName b.finalWinner ++ " (" ++ b.confidence ++ " confidence)" }

/-- The parsed stdin JSON of the plugin.  Each field may be absent;
`main` reads it with `input_data.get(key, default)`. -/
structure PluginInput where
  candidate_answer : Option String
  reference_answer : Option String
  output_messages : Option (List Msg)
  reference_output_messages : Option (List Msg)
  expected_outcome : Option String
deriving DecidableEq, Repr

/-- `main` of the plugin, from the point where the stdin JSON has been
parsed: the missing-reference refusal, the two tool summaries, the
comparison, and the `except` handler that turns an exception into the
error result.  The second component is the process exit code (`sys.exit(1)`
in the handler, 0 otherwise).  Python renders the caught `KeyError` as
`'unique'`; the embedding uses the error string of `compare_responses`. -/
def main_plugin (input : PluginInput) : EvalOutput × Nat :=
  let candidate := input.candidate_answer.getD ""
  let reference := input.reference_answer.getD ""
  let output_messages := input.output_messages.getD []
  let task := input.expected_outcome.getD ""
  if reference = "" then
    ({ score := 1 / 2
       hits := ["Candidate response provided"]
       misses := ["No reference for comparison"]
       reasoning := "Pairwise comparison requires reference_answer field" }, 0)
  else
    let candidate_tools := extract_tool_summary output_messages
    let reference_messages := input.reference_output_messages.getD []
    let reference_tools := extract_tool_summary reference_messages
    match pairwise_with_bias_mitigation candidate reference candidate_tools reference_tools task with
    | Except.ok result => (result, 0)
    | Except.error e =>
      ({ score := 0
         hits := []
         misses := ["Evaluator error: " ++ e]
         reasoning := "Evaluation failed: " ++ e }, 1)

/-- A tool summary whose `unique` key is present (an empty trace summarised
by the long branch of `extract_tool_summary` would have it too). -/
def tsEmptyOk : ToolSummary := { tools := [], count := 0, unique := some [] }

/-- The outcome of the bias-mitigated comparison of two empty responses
with empty (but keyed) tool summaries. -/
def biasOutcome0 : BiasOutcome :=
  { pass1 := { winner := Winner.TIE, a_advantages := [], b_advantages := [] }
    pass2 := { winner := Winner.TIE, a_advantages := [], b_advantages := [] }
    pass2Mapped := Winner.TIE
    consistent := true
    finalWinner := Winner.TIE
    confidence := "high"
    score := 1 / 2 }

/-- A record hits cell `(e, p)` when its extracted pair has both labels
truthy and they decode to exactly `e` and `p` in the closed set. -/
def cellHit (e p : RClass) (r : EvalResult) : Bool :=
  match parse_classification_from_result r with
  | (some ai, some ex) =>
    decide (ai ≠ "" ∧ ex ≠ "") &&
      decide (some e = classOfString ex ∧ some p = classOfString ai)
  | _ => false

/-- A record is usable — it contributes to some cell — exactly when both
extracted labels are present and members of the closed class set. -/
def usableRecord (r : EvalResult) : Bool :=
  match parse_classification_from_result r with
  | (some ai, some ex) => decide (ai ∈ CLASSES) && decide (ex ∈ CLASSES)
  | _ => false

/-- The two records of the spec's worked scenario. -/
def rec1 : EvalResult :=
  { hits := [], misses := ["Mismatch: AI=Low, Expected=High"] }

def rec2 : EvalResult :=
  { hits := ["Correct: AI=High, Expected=High"], misses := [] }

/-- The claim-side macro average: mean of `val` over exactly the classes
whose matrix row (count of actual instances) is non-empty, `0` when no
class has support, rounded as the code rounds all reported values. -/
def macroOverRowSupport (m : ConfusionMatrix) (val : RClass → ℚ) : ℚ :=
  let active := classList.filter (fun c => 0 < rowSum m c)
  if active = [] then 0
  else round4 ((active.map val).sum / (active.length : ℚ))

/-! ### Rounding lemmas -/

lemma roundHalfEven_nonneg (q : ℚ) (h : 0 ≤ q) : 0 ≤ roundHalfEven q := by
  unfold roundHalfEven
  have hf : (0 : ℤ) ≤ Int.floor q := Int.floor_nonneg.mpr h
  dsimp only
  split_ifs <;> omega

lemma roundHalfEven_le_int (q : ℚ) (n : ℤ) (h : q ≤ (n : ℚ)) :
    roundHalfEven q ≤ n := by
  have hf : Int.floor q ≤ n := by
    have h1 : Int.floor q ≤ Int.floor ((n : ℚ)) := Int.floor_le_floor h
    simpa using h1
  unfold roundHalfEven
  dsimp only
  split_ifs with h1 h2 h3
  · exact hf
  · rcases lt_or_eq_of_le hf with hlt | heq
    · omega
    · exfalso
      have hq : q - (Int.floor q : ℚ) ≤ 0 := by rw [heq]; linarith
      linarith
  · exact hf
  · rcases lt_or_eq_of_le hf with hlt | heq
    · omega
    · exfalso
      have hr := not_lt.mp h1
      have hq : q - (Int.floor q : ℚ) ≤ 0 := by rw [heq]; linarith
      linarith

lemma round4_nonneg (q : ℚ) (h : 0 ≤ q) : 0 ≤ round4 q := by
  unfold round4
  apply div_nonneg _ (by norm_num)
  exact_mod_cast roundHalfEven_nonneg _ (mul_nonneg h (by norm_num))

lemma round4_le_one (q : ℚ) (h : q ≤ 1) : round4 q ≤ 1 := by
  unfold round4
  rw [div_le_one (by norm_num)]
  have h2 : roundHalfEven (q * 10000) ≤ (10000 : ℤ) :=
    roundHalfEven_le_int _ 10000 (by push_cast; linarith)
  exact_mod_cast h2

lemma round4_zero : round4 0 = 0 := by
  unfold round4
  rw [zero_mul]
  unfold roundHalfEven
  rw [Int.floor_zero]
  norm_num

/-! ### Per-class metric bounds -/

lemma precisionRaw_mem (m : ConfusionMatrix) (c : RClass) :
    0 ≤ precisionRaw m c ∧ precisionRaw m c ≤ 1 := by
  unfold precisionRaw
  split_ifs with h
  · have hpos : (0 : ℚ) < (tpOf m c : ℚ) + (fpOf m c : ℚ) := by exact_mod_cast h
    constructor
    · positivity
    · rw [div_le_one hpos]
      have hfp : (0 : ℚ) ≤ (fpOf m c : ℚ) := Nat.cast_nonneg _
      linarith
  · norm_num

lemma recallRaw_mem (m : ConfusionMatrix) (c : RClass) :
    0 ≤ recallRaw m c ∧ recallRaw m c ≤ 1 := by
  unfold recallRaw
  split_ifs with h
  · have hpos : (0 : ℚ) < (tpOf m c : ℚ) + (fnOf m c : ℚ) := by exact_mod_cast h
    constructor
    · positivity
    · rw [div_le_one hpos]
      have hfn : (0 : ℚ) ≤ (fnOf m c : ℚ) := Nat.cast_nonneg _
      linarith
  · norm_num

lemma f1Raw_mem (m : ConfusionMatrix) (c : RClass) :
    0 ≤ f1Raw m c ∧ f1Raw m c ≤ 1 := by
  obtain ⟨hp0, hp1⟩ := precisionRaw_mem m c
  obtain ⟨hr0, hr1⟩ := recallRaw_mem m c
  unfold f1Raw
  split_ifs with h
  · constructor
    · exact div_nonneg (by positivity) (le_of_lt h)
    · rw [div_le_one h]
      nlinarith [mul_nonneg (sub_nonneg.mpr hp1) hr0,
        mul_nonneg (sub_nonneg.mpr hr1) hp0]
  · norm_num

/-- C5: for every confusion matrix (the all-zero one included) and every
class, the reported precision, recall and f1 lie in [0,1]; each is exactly
0 when its denominator — TP+FP, TP+FN, or unrounded precision+recall
respectively — is zero (the code's guards replace the impossible division
by 0.0; `ℚ` has no NaN, matching the claim that no NaN or fault occurs). -/
theorem spec_c5_metric_bounds (m : ConfusionMatrix) (c : RClass) :
    (0 ≤ (compute_class_metrics m c).precision ∧
      (compute_class_metrics m c).precision ≤ 1) ∧
    (0 ≤ (compute_class_metrics m c).«recall» ∧
      (compute_class_metrics m c).«recall» ≤ 1) ∧
    (0 ≤ (compute_class_metrics m c).f1 ∧ (compute_class_metrics m c).f1 ≤ 1) ∧
    (tpOf m c + fpOf m c = 0 → (compute_class_metrics m c).precision = 0) ∧
    (tpOf m c + fnOf m c = 0 → (compute_class_metrics m c).«recall» = 0) ∧
    (precisionRaw m c + recallRaw m c = 0 → (compute_class_metrics m c).f1 = 0) := by
  simp only [compute_class_metrics]
  refine ⟨⟨round4_nonneg _ (precisionRaw_mem m c).1, round4_le_one _ (precisionRaw_mem m c).2⟩,
    ⟨round4_nonneg _ (recallRaw_mem m c).1, round4_le_one _ (recallRaw_mem m c).2⟩,
    ⟨round4_nonneg _ (f1Raw_mem m c).1, round4_le_one _ (f1Raw_mem m c).2⟩, ?_, ?_, ?_⟩
  · intro h
    have hz : precisionRaw m c = 0 := by simp [precisionRaw, h]
    rw [hz, round4_zero]
  · intro h
    have hz : recallRaw m c = 0 := by simp [recallRaw, h]
    rw [hz, round4_zero]
  · intro h
    have hz : f1Raw m c = 0 := by simp [f1Raw, h]
    rw [hz, round4_zero]

/-- Witness for C5 at the all-zero matrix and class High. -/
theorem spec_c5_metric_bounds_witness :
    (0 ≤ (compute_class_metrics emptyMatrix RClass.High).precision ∧
      (compute_class_metrics emptyMatrix RClass.High).precision ≤ 1) ∧
    (0 ≤ (compute_class_metrics emptyMatrix RClass.High).«recall» ∧
      (compute_class_metrics emptyMatrix RClass.High).«recall» ≤ 1) ∧
    (0 ≤ (compute_class_metrics emptyMatrix RClass.High).f1 ∧
      (compute_class_metrics emptyMatrix RClass.High).f1 ≤ 1) ∧
    (tpOf emptyMatrix RClass.High + fpOf emptyMatrix RClass.High = 0 →
      (compute_class_metrics emptyMatrix RClass.High).precision = 0) ∧
    (tpOf emptyMatrix RClass.High + fnOf emptyMatrix RClass.High = 0 →
      (compute_class_metrics emptyMatrix RClass.High).«recall» = 0) ∧
    (precisionRaw emptyMatrix RClass.High + recallRaw emptyMatrix RClass.High = 0 →
      (compute_class_metrics emptyMatrix RClass.High).f1 = 0) :=
  spec_c5_metric_bounds emptyMatrix RClass.High

/-! ### Threshold gate (C3) -/

/-- C3 counterexample: with the checked class absent and threshold 0 — a
threshold inside the claim's range [0,1] — the gate reports `actualF1 = 0`
but verdict `pass` (the inclusive boundary), not the `fail` the claim
asserts for every threshold in [0,1]. -/
theorem spec_c3_counterexample :
    (check_threshold [] ("High") 0).actualF1 = 0 ∧
    (check_threshold [] ("High") 0).result = "pass" ∧
    ((0 : ℚ) ≤ 0 ∧ (0 : ℚ) ≤ 1) := by
  refine ⟨rfl, ?_, by norm_num⟩
  rfl

/-- C3 amended: `passed = actualF1 ≥ threshold` with equality passing;
`margin = round4 (actualF1 - threshold)`; an absent class is treated as
all-zero, giving `actualF1 = 0` and a fail verdict for every threshold
> 0 (at threshold = 0 the inclusive boundary makes it pass), never an
error. -/
theorem spec_c3_amended (pcm : List (String × ℚ)) (cls : String) (t : ℚ)
    (h0 : 0 ≤ t) (h1 : t ≤ 1) :
    ((check_threshold pcm cls t).result = "pass" ↔
      t ≤ (check_threshold pcm cls t).actualF1) ∧
    (check_threshold pcm cls t).margin =
      round4 ((check_threshold pcm cls t).actualF1 - t) ∧
    (pcm.lookup cls = none →
      (check_threshold pcm cls t).actualF1 = 0 ∧
      (0 < t → (check_threshold pcm cls t).result = "fail") ∧
      (t = 0 → (check_threshold pcm cls t).result = "pass")) := by
  refine ⟨?_, ?_, ?_⟩
  · unfold check_threshold
    dsimp only
    split_ifs with hp <;> simp [hp]
  · rfl
  · intro hn
    refine ⟨?_, ?_, ?_⟩
    · simp [check_threshold, hn]
    · intro ht
      have : ¬ (t ≤ (0 : ℚ)) := not_le.mpr ht
      simp [check_threshold, hn, this]
    · intro ht
      simp [check_threshold, hn, ht]

/-- Witness for C3's amended theorem at an empty metrics dict, class
`High`, threshold 1/2. -/
theorem spec_c3_amended_witness :
    ((check_threshold [] ("High") (1/2)).result = "pass" ↔
      (1/2 : ℚ) ≤ (check_threshold [] ("High") (1/2)).actualF1) ∧
    (check_threshold [] ("High") (1/2)).margin =
      round4 ((check_threshold [] ("High") (1/2)).actualF1 - 1/2) ∧
    (([] : List (String × ℚ)).lookup ("High") = none →
      (check_threshold [] ("High") (1/2)).actualF1 = 0 ∧
      ((0 : ℚ) < 1/2 → (check_threshold [] ("High") (1/2)).result = "fail") ∧
      ((1/2 : ℚ) = 0 → (check_threshold [] ("High") (1/2)).result = "pass")) :=
  spec_c3_amended [] ("High") (1/2) (by norm_num) (by norm_num)

/-! ### Symmetry of the comparison rubric -/

lemma toolCountStep_swap (ca cb : Nat) :
    (toolCountStep cb ca).1.length = (toolCountStep ca cb).2.length ∧
    (toolCountStep cb ca).2.length = (toolCountStep ca cb).1.length := by
  unfold toolCountStep
  split_ifs <;> simp_all <;> omega

lemma diversityStep_swap (ua ub : Nat) :
    (diversityStep ub ua).1.length = (diversityStep ua ub).2.length ∧
    (diversityStep ub ua).2.length = (diversityStep ua ub).1.length := by
  unfold diversityStep
  split_ifs <;> simp_all <;> omega

lemma lengthStep_swap (la lb : Nat) :
    (lengthStep lb la).1.length = (lengthStep la lb).2.length ∧
    (lengthStep lb la).2.length = (lengthStep la lb).1.length := by
  unfold lengthStep
  split_ifs <;> simp_all <;> omega

lemma noToolsStep_swap (ca cb : Nat) :
    (noToolsStep cb ca).1.length = (noToolsStep ca cb).2.length ∧
    (noToolsStep cb ca).2.length = (noToolsStep ca cb).1.length := by
  unfold noToolsStep
  split_ifs <;> simp_all <;> omega

/-- Each of the four checks of `compare_responses` is a mirror image of
itself under swapping the two sides, so the winner of the swapped call is
the remapped winner of the original call. -/
lemma compare_responses_swap (ra rb : String) (ta tb : ToolSummary)
    (task : String) (x y : CmpResult)
    (hx : compare_responses ra rb ta tb task = Except.ok x)
    (hy : compare_responses rb ra tb ta task = Except.ok y) :
    y.winner = pass2_map x.winner := by
  unfold compare_responses at hx hy
  rcases hta : ta.unique with _ | ua <;> rw [hta] at hx hy <;>
    rcases htb : tb.unique with _ | ub <;> rw [htb] at hx hy <;>
    simp only [] at hx hy
  · exact absurd hx (by simp)
  · exact absurd hx (by simp)
  · exact absurd hx (by simp)
  simp only [Except.ok.injEq] at hx hy
  subst hx
  subst hy
  simp only []
  obtain ⟨h1a, h1b⟩ := toolCountStep_swap ta.count tb.count
  obtain ⟨h2a, h2b⟩ := diversityStep_swap ua.length ub.length
  obtain ⟨h3a, h3b⟩ := lengthStep_swap ra.length rb.length
  obtain ⟨h4a, h4b⟩ := noToolsStep_swap ta.count tb.count
  simp only [List.length_append]
  rw [h1a, h1b, h2a, h2b, h3a, h3b, h4a, h4b]
  split_ifs <;> simp [pass2_map] <;> omega

/-! ### C1: bias detection never fires -/

/-- C1 counterexample: the claimed inputs do not exist.  The rubric of
`compare_responses` is deterministic and symmetric under swapping the two
sides, so there is no pair of responses and tool summaries for which pass 1
favors one side while the remapped pass 2 favors the other — the negation
of the claim's existential premise. -/
theorem spec_c1_counterexample :
    ¬ ∃ (c r : String) (ct rt : ToolSummary) (task : String)
      (p1 p2 : CmpResult),
      compare_responses c r ct rt task = Except.ok p1 ∧
      compare_responses r c rt ct task = Except.ok p2 ∧
      pass2_map p2.winner ≠ p1.winner := by
  rintro ⟨c, r, ct, rt, task, p1, p2, h1, h2, hne⟩
  have hs := compare_responses_swap c r ct rt task p1 p2 h1 h2
  apply hne
  rw [hs]
  cases p1.winner <;> rfl

/-- C1 amended: the two passes never disagree.  Whenever the comparison
succeeds, pass 2's remapped winner equals pass 1's winner, so the
consistency flag is always true, the final verdict is pass 1's winner with
high confidence, and the score is the pass-1 winner's score (candidate win
1.0, reference win 0.0, tie 0.5).  The code's branch forcing `Tie` with low
confidence on disagreement is unreachable. -/
theorem spec_c1_amended (c r : String) (ct rt : ToolSummary) (task : String)
    (b : BiasOutcome)
    (h : bias_mitigation_core c r ct rt task = Except.ok b) :
    b.consistent = true ∧ b.finalWinner = b.pass1.winner ∧
    b.confidence = "high" ∧
    b.score = (match b.pass1.winner with
      | Winner.A => (1 : ℚ)
      | Winner.B => 0
      | Winner.TIE => 1 / 2) := by
  unfold bias_mitigation_core at h
  rcases hc1 : compare_responses c r ct rt task with e1 | p1 <;> rw [hc1] at h
  · exact absurd h (by simp)
  · rcases hc2 : compare_responses r c rt ct task with e2 | p2 <;> rw [hc2] at h
    · exact absurd h (by simp)
    · have hs := compare_responses_swap c r ct rt task p1 p2 hc1 hc2
      have hmap : pass2_map p2.winner = p1.winner := by
        rw [hs]; cases p1.winner <;> rfl
      simp only [hmap, Except.ok.injEq] at h
      subst h
      simp

/-- Witness for C1's amended theorem at a concrete successful run. -/
theorem spec_c1_amended_witness :
    bias_mitigation_core "" "" tsEmptyOk tsEmptyOk "" = Except.ok biasOutcome0 ∧
    (biasOutcome0.consistent = true ∧
      biasOutcome0.finalWinner = biasOutcome0.pass1.winner ∧
      biasOutcome0.confidence = "high" ∧
      biasOutcome0.score = (match biasOutcome0.pass1.winner with
        | Winner.A => (1 : ℚ)
        | Winner.B => 0
        | Winner.TIE => 1 / 2)) :=
  ⟨rfl, spec_c1_amended "" "" tsEmptyOk tsEmptyOk "" biasOutcome0 rfl⟩

/-! ### C2: empty traces crash the comparison -/

lemma compare_responses_error_left (ra rb : String) (ta tb : ToolSummary)
    (task : String) (h : ta.unique = none) :
    compare_responses ra rb ta tb task = Except.error ("KeyError: unique") := by
  unfold compare_responses
  rw [h]

lemma compare_responses_error_right (ra rb : String) (ta tb : ToolSummary)
    (task : String) (h : tb.unique = none) :
    compare_responses ra rb ta tb task = Except.error ("KeyError: unique") := by
  unfold compare_responses
  rw [h]
  rcases ta.unique with _ | u <;> rfl

/-- C2: with a reference answer present (non-empty) and either side's
message trace empty or absent, `extract_tool_summary` returns a summary
without the `unique` key, the comparison raises `KeyError` at the
tool-diversity check, and `main` converts this into the error result with
score 0, empty hits, an `Evaluation failed` reasoning and exit code 1 — no
comparison verdict is produced.  (Python renders the caught `KeyError` as
`'unique'`; the embedding's error string is `KeyError: unique`.) -/
theorem spec_c2_empty_trace_error (input : PluginInput)
    (href : input.reference_answer.getD "" ≠ "")
    (hempty : input.output_messages.getD [] = [] ∨
      input.reference_output_messages.getD [] = []) :
    (extract_tool_summary []).unique = none ∧
    main_plugin input =
      ({ score := 0
         hits := []
         misses := ["Evaluator error: KeyError: unique"]
         reasoning := "Evaluation failed: KeyError: unique" }, 1) := by
  refine ⟨rfl, ?_⟩
  have herr : pairwise_with_bias_mitigation (input.candidate_answer.getD "")
      (input.reference_answer.getD "")
      (extract_tool_summary (input.output_messages.getD []))
      (extract_tool_summary (input.reference_output_messages.getD []))
      (input.expected_outcome.getD "") = Except.error ("KeyError: unique") := by
    unfold pairwise_with_bias_mitigation bias_mitigation_core
    rcases hempty with h | h
    · rw [h, compare_responses_error_left _ _ _ _ _ rfl]
    · rw [h, compare_responses_error_right _ _ _ _ _ rfl]
  unfold main_plugin
  rw [if_neg href]
  dsimp only
  rw [herr]
  rfl

/-- Witness for C2: a present reference answer and both traces absent. -/
theorem spec_c2_empty_trace_error_witness :
    (({ candidate_answer := some ("hello")
        reference_answer := some ("ref")
        output_messages := none
        reference_output_messages := none
        expected_outcome := none } : PluginInput).reference_answer.getD "" ≠ "" ∧
      ({ candidate_answer := some ("hello")
         reference_answer := some ("ref")
         output_messages := none
         reference_output_messages := none
         expected_outcome := none } : PluginInput).output_messages.getD [] = []) ∧
    (extract_tool_summary []).unique = none ∧
    main_plugin
      { candidate_answer := some ("hello")
        reference_answer := some ("ref")
        output_messages := none
        reference_output_messages := none
        expected_outcome := none } =
      ({ score := 0
         hits := []
         misses := ["Evaluator error: KeyError: unique"]
         reasoning := "Evaluation failed: KeyError: unique" }, 1) :=
  ⟨⟨by decide, rfl⟩,
    spec_c2_empty_trace_error _ (by decide) (Or.inl rfl)⟩

/-! ### C10: missing reference refusal -/

/-- C10: when the reference answer is absent or empty, `main` refuses to
compare: it returns the neutral score 0.5 with the explicit no-reference
explanation and exits cleanly (exit code 0), performing no comparison. -/
theorem spec_c10_no_reference (input : PluginInput)
    (h : input.reference_answer.getD "" = "") :
    main_plugin input =
      ({ score := 1 / 2
         hits := ["Candidate response provided"]
         misses := ["No reference for comparison"]
         reasoning := "Pairwise comparison requires reference_answer field" }, 0) := by
  unfold main_plugin
  rw [if_pos h]

/-- Witness for C10 at an input with no reference answer at all. -/
theorem spec_c10_no_reference_witness :
    (({ candidate_answer := some ("hello")
        reference_answer := none
        output_messages := none
        reference_output_messages := none
        expected_outcome := none } : PluginInput).reference_answer.getD "" = "") ∧
    main_plugin
      { candidate_answer := some ("hello")
        reference_answer := none
        output_messages := none
        reference_output_messages := none
        expected_outcome := none } =
      ({ score := 1 / 2
         hits := ["Candidate response provided"]
         misses := ["No reference for comparison"]
         reasoning := "Pairwise comparison requires reference_answer field" }, 0) :=
  ⟨rfl, spec_c10_no_reference _ rfl⟩

/-! ### Counting view of the confusion matrix (C7, C8) -/

lemma mem_CLASSES_ne_empty (s : String) (h : s ∈ CLASSES) : s ≠ "" := by
  fin_cases h <;> decide

lemma bump_cell (m : ConfusionMatrix) (ce cp e p : RClass) :
    bump m ce cp e p = m e p + (if e = ce ∧ p = cp then 1 else 0) := by
  unfold bump
  by_cases h : e = ce ∧ p = cp <;> simp [h]

lemma recordStep_cell (m : ConfusionMatrix) (r : EvalResult) (e p : RClass) :
    recordStep m r e p = m e p + (if cellHit e p r then 1 else 0) := by
  unfold recordStep cellHit
  rcases hpr : parse_classification_from_result r with ⟨ai, ex⟩
  rcases ai with _ | a
  · simp
  rcases ex with _ | x
  · simp
  simp only []
  by_cases hne : a ≠ "" ∧ x ≠ ""
  · rw [if_pos hne]
    unfold classOfString
    split_ifs <;> simp_all [bump_cell]
  · rw [if_neg hne]
    simp [hne]

lemma foldl_cell (rs : List EvalResult) (m : ConfusionMatrix) (e p : RClass) :
    rs.foldl recordStep m e p = m e p + rs.countP (cellHit e p) := by
  induction rs generalizing m with
  | nil => simp
  | cons r t ih =>
    simp only [List.foldl_cons, List.countP_cons]
    rw [ih (recordStep m r), recordStep_cell]
    by_cases hc : cellHit e p r <;> simp [hc] <;> omega

lemma build_cell (rs : List EvalResult) (e p : RClass) :
    build_confusion_matrix rs e p = rs.countP (cellHit e p) := by
  unfold build_confusion_matrix
  rw [foldl_cell]
  simp [emptyMatrix]

lemma bump_total (m : ConfusionMatrix) (e p : RClass) :
    matrixTotal (bump m e p) = matrixTotal m + 1 := by
  cases e <;> cases p <;>
    simp [matrixTotal, rowSum, bump, classList] <;> omega

lemma matrixTotal_step (m : ConfusionMatrix) (r : EvalResult) :
    matrixTotal (recordStep m r) =
      matrixTotal m + (if usableRecord r then 1 else 0) := by
  unfold recordStep usableRecord
  rcases hpr : parse_classification_from_result r with ⟨ai, ex⟩
  rcases ai with _ | a
  · simp
  rcases ex with _ | x
  · simp
  simp only []
  by_cases hne : a ≠ "" ∧ x ≠ ""
  · rw [if_pos hne]
    unfold classOfString
    split_ifs <;> simp_all [bump_total, CLASSES]
  · rw [if_neg hne]
    by_cases ha : a ∈ CLASSES
    · by_cases hx : x ∈ CLASSES
      · exact absurd ⟨mem_CLASSES_ne_empty a ha, mem_CLASSES_ne_empty x hx⟩ hne
      · simp [ha, hx]
    · simp [ha]

lemma foldl_total (rs : List EvalResult) (m : ConfusionMatrix) :
    matrixTotal (rs.foldl recordStep m) =
      matrixTotal m + rs.countP usableRecord := by
  induction rs generalizing m with
  | nil => simp
  | cons r t ih =>
    simp only [List.foldl_cons, List.countP_cons]
    rw [ih (recordStep m r), matrixTotal_step]
    by_cases hc : usableRecord r <;> simp [hc] <;> omega

/-- C7: the built matrix, viewed cell by cell, counts exactly the records
whose extracted pair decodes to that cell, and its grand total is exactly
the number of records whose extracted pair has both labels present and in
the closed class set; records with an absent or out-of-set label contribute
to no cell.  (Cells form a total function over the closed set — the dict
literal of the source creates every cell, zero included — and counts are
naturals, hence never negative.) -/
theorem spec_c7_matrix_counts (rs : List EvalResult) :
    (∀ e p : RClass,
      build_confusion_matrix rs e p = rs.countP (cellHit e p)) ∧
    matrixTotal (build_confusion_matrix rs) = rs.countP usableRecord := by
  constructor
  · intro e p
    exact build_cell rs e p
  · unfold build_confusion_matrix
    rw [foldl_total]
    simp [matrixTotal, rowSum, emptyMatrix, classList]

/-- C8: building the confusion matrix from any permutation of the record
sequence yields the identical matrix, cell for cell. -/
theorem spec_c8_order_independence (rs rs2 : List EvalResult)
    (h : rs.Perm rs2) :
    build_confusion_matrix rs = build_confusion_matrix rs2 := by
  funext e p
  rw [build_cell, build_cell]
  exact List.Perm.countP_eq _ h

/-- Witness for C8 at a concrete transposition. -/
theorem spec_c8_order_independence_witness :
    ([rec1, rec2] : List EvalResult).Perm [rec2, rec1] ∧
    build_confusion_matrix [rec1, rec2] = build_confusion_matrix [rec2, rec1] :=
  ⟨List.Perm.swap rec2 rec1 [],
    spec_c8_order_independence [rec1, rec2] [rec2, rec1]
      (List.Perm.swap rec2 rec1 [])⟩

/-! ### C6: macro averages over supported classes, accuracy -/

lemma support_eq_rowSum (m : ConfusionMatrix) (c : RClass) :
    support (fun c2 => compute_class_metrics m c2) c = rowSum m c := by
  cases c <;>
    simp [support, compute_class_metrics, tpOf, fnOf, rowSum, classList] <;>
    omega

lemma activeClasses_eq (m : ConfusionMatrix) :
    activeClasses (fun c => compute_class_metrics m c) =
      classList.filter (fun c => 0 < rowSum m c) := by
  unfold activeClasses
  apply List.filter_congr
  intro c _
  simp [support_eq_rowSum]

/-- C6: over the matrix built from any record sequence, the macro
precision/recall/F1 are the (rounded) arithmetic mean of the stored
per-class values over exactly the classes with positive support — where a
class's support equals its matrix row sum, the count of its actual
instances — all three are 0 when no class has support; and accuracy is the
(rounded) ratio of the diagonal sum to the total, 0 when the total is 0. -/
theorem spec_c6_macro_and_accuracy (rs : List EvalResult) :
    (compute_overall_metrics
        (fun c => compute_class_metrics (build_confusion_matrix rs) c)).precision =
      macroOverRowSupport (build_confusion_matrix rs)
        (fun c => (compute_class_metrics (build_confusion_matrix rs) c).precision) ∧
    (compute_overall_metrics
        (fun c => compute_class_metrics (build_confusion_matrix rs) c)).«recall» =
      macroOverRowSupport (build_confusion_matrix rs)
        (fun c => (compute_class_metrics (build_confusion_matrix rs) c).«recall») ∧
    (compute_overall_metrics
        (fun c => compute_class_metrics (build_confusion_matrix rs) c)).f1 =
      macroOverRowSupport (build_confusion_matrix rs)
        (fun c => (compute_class_metrics (build_confusion_matrix rs) c).f1) ∧
    compute_accuracy (build_confusion_matrix rs) =
      (if matrixTotal (build_confusion_matrix rs) = 0 then 0
       else round4 ((diagSum (build_confusion_matrix rs) : ℚ) /
         (matrixTotal (build_confusion_matrix rs) : ℚ))) := by
  have hact := activeClasses_eq (build_confusion_matrix rs)
  refine ⟨?_, ?_, ?_, ?_⟩
  · unfold compute_overall_metrics macroOverRowSupport
    dsimp only
    rw [hact]
    split_ifs <;> rfl
  · unfold compute_overall_metrics macroOverRowSupport
    dsimp only
    rw [hact]
    split_ifs <;> rfl
  · unfold compute_overall_metrics macroOverRowSupport
    dsimp only
    rw [hact]
    split_ifs <;> rfl
  · unfold compute_accuracy
    rcases Nat.eq_zero_or_pos (matrixTotal (build_confusion_matrix rs)) with h | h
    · simp [h]
    · rw [if_pos h, if_neg (Nat.pos_iff_ne_zero.mp h)]

/-! ### C9: extraction priority and fallback -/

lemma findSome?_append_of_none (f : α → Option β) (l1 l2 : List α)
    (h : ∀ x ∈ l1, f x = none) :
    (l1 ++ l2).findSome? f = l2.findSome? f := by
  induction l1 with
  | nil => rfl
  | cons a t ih =>
    have ha : f a = none := h a (by simp)
    have ht : ∀ x ∈ t, f x = none := fun x hx => h x (by simp [hx])
    simp [List.findSome?_cons, ha, ih ht]

lemma findSome?_eq_none_of_none (f : α → Option β) (l : List α)
    (h : ∀ x ∈ l, f x = none) : l.findSome? f = none := by
  have h2 := findSome?_append_of_none f l [] h
  simpa using h2

lemma find?_append_of_neg (p : α → Bool) (l1 l2 : List α)
    (h : ∀ x ∈ l1, p x = false) :
    (l1 ++ l2).find? p = l2.find? p := by
  induction l1 with
  | nil => rfl
  | cons a t ih =>
    have ha : p a = false := h a (by simp)
    have ht : ∀ x ∈ t, p x = false := fun x hx => h x (by simp [hx])
    rw [List.cons_append, List.find?_cons_of_neg _ (by simp [ha]), ih ht]

lemma find?_eq_none_of_neg (p : α → Bool) (l : List α)
    (h : ∀ x ∈ l, p x = false) : l.find? p = none := by
  have h2 := find?_append_of_neg p l [] h
  simpa using h2

/-- C9: label extraction scans the misses first and then the hits for the
`AI=<label>, Expected=<label>` pattern (word-character labels); the first
match in miss-then-hit order wins and scanning stops there.  Only when no
string matches anywhere does it scan the hits for a leading `riskLevel=`
marker, recovering the predicted label only, with expected absent.  With
no pattern at all the result is `(none, none)` — extraction is a total
function and never raises. -/
theorem spec_c9_extraction_priority (r : EvalResult) :
    (∀ (l1 : List String) (msg : String) (l2 : List String) (a e : String),
      r.misses = l1 ++ msg :: l2 →
      (∀ x ∈ l1, searchAIExpected x = none) →
      searchAIExpected msg = some (a, e) →
      parse_classification_from_result r = (some a, some e)) ∧
    (∀ (l1 : List String) (hit : String) (l2 : List String) (a e : String),
      (∀ x ∈ r.misses, searchAIExpected x = none) →
      r.hits = l1 ++ hit :: l2 →
      (∀ x ∈ l1, searchAIExpected x = none) →
      searchAIExpected hit = some (a, e) →
      parse_classification_from_result r = (some a, some e)) ∧
    (∀ (l1 : List String) (hit : String) (l2 : List String),
      (∀ x ∈ r.misses, searchAIExpected x = none) →
      (∀ x ∈ r.hits, searchAIExpected x = none) →
      r.hits = l1 ++ hit :: l2 →
      (∀ x ∈ l1, x.startsWith ("riskLevel=") = false) →
      hit.startsWith ("riskLevel=") = true →
      parse_classification_from_result r =
        (some ((hit.splitOn ("=")).getD 1 ""), none)) ∧
    ((∀ x ∈ r.misses, searchAIExpected x = none) →
     (∀ x ∈ r.hits, searchAIExpected x = none) →
     (∀ x ∈ r.hits, x.startsWith ("riskLevel=") = false) →
     parse_classification_from_result r = (none, none)) := by
  refine ⟨?_, ?_, ?_, ?_⟩
  · intro l1 msg l2 a e hsplit hnone hfound
    unfold parse_classification_from_result
    rw [hsplit, findSome?_append_of_none _ _ _ hnone, List.findSome?_cons,
      hfound]
  · intro l1 hit l2 a e hmiss hsplit hnone hfound
    have hm : r.misses.findSome? searchAIExpected = none :=
      findSome?_eq_none_of_none _ _ hmiss
    unfold parse_classification_from_result
    rw [hm, hsplit, findSome?_append_of_none _ _ _ hnone,
      List.findSome?_cons, hfound]
  · intro l1 hit l2 hmiss hhits hsplit hneg hpos
    have hm : r.misses.findSome? searchAIExpected = none :=
      findSome?_eq_none_of_none _ _ hmiss
    have hh : r.hits.findSome? searchAIExpected = none :=
      findSome?_eq_none_of_none _ _ hhits
    have hfind : List.find? (fun x => x.startsWith ("riskLevel="))
        (hit :: l2) = some hit := List.find?_cons_of_pos l2 hpos
    unfold parse_classification_from_result
    rw [hm, hh, hsplit, find?_append_of_neg _ _ _ hneg, hfind]
  · intro hmiss hhits hrisk
    have hm : r.misses.findSome? searchAIExpected = none :=
      findSome?_eq_none_of_none _ _ hmiss
    have hh : r.hits.findSome? searchAIExpected = none :=
      findSome?_eq_none_of_none _ _ hhits
    have hf : r.hits.find? (fun h => h.startsWith ("riskLevel=")) = none :=
      find?_eq_none_of_neg _ _ hrisk
    unfold parse_classification_from_result
    rw [hm, hh, hf]

/-- Witness for C9: the first conjunct applied to the scenario's miss
record. -/
theorem spec_c9_extraction_priority_witness :
    rec1.misses = [] ++ "Mismatch: AI=Low, Expected=High" :: [] ∧
    searchAIExpected ("Mismatch: AI=Low, Expected=High") = some ("Low", "High") ∧
    parse_classification_from_result rec1 = (some "Low", some "High") :=
  ⟨rfl, by decide,
    (spec_c9_extraction_priority rec1).1 []
      ("Mismatch: AI=Low, Expected=High") [] "Low" "High" rfl
      (by intro x hx; exact absurd hx (List.not_mem_nil x)) (by decide)⟩

/-! ### Evaluating `round4` on concrete rationals -/

lemma round4_eval_down (q : ℚ) (f : ℤ) (hf : Int.floor (q * 10000) = f)
    (hlt : q * 10000 - (f : ℚ) < 1 / 2) :
    round4 q = (f : ℚ) / 10000 := by
  unfold round4 roundHalfEven
  dsimp only
  rw [hf, if_pos hlt]

lemma round4_eval_up (q : ℚ) (f : ℤ) (hf : Int.floor (q * 10000) = f)
    (hgt : 1 / 2 < q * 10000 - (f : ℚ)) :
    round4 q = ((f + 1 : ℤ) : ℚ) / 10000 := by
  unfold round4 roundHalfEven
  dsimp only
  rw [hf, if_neg (by linarith), if_pos hgt]

lemma round4_one : round4 1 = 1 := by
  have hf : Int.floor ((1 : ℚ) * 10000) = 10000 := by
    rw [show (1 : ℚ) * 10000 = ((10000 : ℤ) : ℚ) by norm_num, Int.floor_intCast]
  rw [round4_eval_down 1 10000 hf (by push_cast; norm_num)]
  norm_num

lemma round4_half : round4 (1 / 2) = 1 / 2 := by
  have hf : Int.floor ((1 / 2 : ℚ) * 10000) = 5000 := by
    rw [show (1 / 2 : ℚ) * 10000 = ((5000 : ℤ) : ℚ) by norm_num, Int.floor_intCast]
  rw [round4_eval_down (1 / 2) 5000 hf (by push_cast; norm_num)]
  norm_num

lemma round4_two_thirds : round4 (2 / 3) = 6667 / 10000 := by
  have hf : Int.floor ((2 / 3 : ℚ) * 10000) = 6666 := by
    rw [Int.floor_eq_iff]
    constructor <;> push_cast <;> norm_num
  rw [round4_eval_up (2 / 3) 6666 hf (by push_cast; norm_num)]
  norm_num

lemma round4_neg2833 : round4 (-2833 / 10000) = -(2833 / 10000) := by
  have hf : Int.floor ((-2833 / 10000 : ℚ) * 10000) = -2833 := by
    rw [show (-2833 / 10000 : ℚ) * 10000 = ((-2833 : ℤ) : ℚ) by norm_num,
      Int.floor_intCast]
  rw [round4_eval_down (-2833 / 10000) (-2833) hf (by push_cast; norm_num)]
  norm_num

/-! ### C4: the worked scenario -/

/-- C4: on the two scenario records the built matrix has exactly the cells
High→Low = 1 and High→High = 1 (all seven others zero); class High gets
precision 1, recall 1/2 and f1 = 0.6667 (the code's 4-decimal rounding of
2/3 ≈ 0.667); and the threshold gate at 0.95 on class High fails with
margin = -0.2833 ≈ -0.283. -/
theorem spec_c4_scenario :
    build_confusion_matrix [rec1, rec2] RClass.High RClass.Low = 1 ∧
    build_confusion_matrix [rec1, rec2] RClass.High RClass.High = 1 ∧
    build_confusion_matrix [rec1, rec2] RClass.High RClass.Medium = 0 ∧
    build_confusion_matrix [rec1, rec2] RClass.Low RClass.Low = 0 ∧
    build_confusion_matrix [rec1, rec2] RClass.Low RClass.Medium = 0 ∧
    build_confusion_matrix [rec1, rec2] RClass.Low RClass.High = 0 ∧
    build_confusion_matrix [rec1, rec2] RClass.Medium RClass.Low = 0 ∧
    build_confusion_matrix [rec1, rec2] RClass.Medium RClass.Medium = 0 ∧
    build_confusion_matrix [rec1, rec2] RClass.Medium RClass.High = 0 ∧
    (compute_class_metrics (build_confusion_matrix [rec1, rec2])
      RClass.High).precision = 1 ∧
    (compute_class_metrics (build_confusion_matrix [rec1, rec2])
      RClass.High).«recall» = 1 / 2 ∧
    (compute_class_metrics (build_confusion_matrix [rec1, rec2])
      RClass.High).f1 = 6667 / 10000 ∧
    (check_threshold (metricsPerClassOf (build_confusion_matrix [rec1, rec2]))
      ("High") (95 / 100)).result = "fail" ∧
    (check_threshold (metricsPerClassOf (build_confusion_matrix [rec1, rec2]))
      ("High") (95 / 100)).margin = -(2833 / 10000) := by
  have htp : tpOf (build_confusion_matrix [rec1, rec2]) RClass.High = 1 := by
    decide
  have hfp : fpOf (build_confusion_matrix [rec1, rec2]) RClass.High = 0 := by
    decide
  have hfn : fnOf (build_confusion_matrix [rec1, rec2]) RClass.High = 1 := by
    decide
  have hpraw : precisionRaw (build_confusion_matrix [rec1, rec2]) RClass.High = 1 := by
    unfold precisionRaw
    rw [htp, hfp]
    norm_num
  have hrraw : recallRaw (build_confusion_matrix [rec1, rec2]) RClass.High = 1 / 2 := by
    unfold recallRaw
    rw [htp, hfn]
    norm_num
  have hfraw : f1Raw (build_confusion_matrix [rec1, rec2]) RClass.High = 2 / 3 := by
    unfold f1Raw
    rw [hpraw, hrraw]
    norm_num
  have hprec : (compute_class_metrics (build_confusion_matrix [rec1, rec2])
      RClass.High).precision = 1 := by
    simp only [compute_class_metrics]
    rw [hpraw, round4_one]
  have hrec : (compute_class_metrics (build_confusion_matrix [rec1, rec2])
      RClass.High).«recall» = 1 / 2 := by
    simp only [compute_class_metrics]
    rw [hrraw, round4_half]
  have hf1 : (compute_class_metrics (build_confusion_matrix [rec1, rec2])
      RClass.High).f1 = 6667 / 10000 := by
    simp only [compute_class_metrics]
    rw [hfraw, round4_two_thirds]
  have hlook : (metricsPerClassOf (build_confusion_matrix [rec1, rec2])).lookup
      ("High") = some (6667 / 10000) := by
    have hb1 : (("High" == "Low") = false) := by decide
    have hb2 : (("High" == "Medium") = false) := by decide
    have hb3 : (("High" == "High") = true) := by decide
    simp only [metricsPerClassOf, List.lookup, hb1, hb2, hb3]
    rw [hf1]
  have hcheck : check_threshold (metricsPerClassOf (build_confusion_matrix [rec1, rec2]))
      ("High") (95 / 100) =
      { result := "fail", checkedClass := "High", threshold := 95 / 100,
        actualF1 := 6667 / 10000, margin := -(2833 / 10000) } := by
    unfold check_threshold
    dsimp only
    rw [hlook]
    have hle : ¬ ((95 / 100 : ℚ) ≤ (some ((6667 : ℚ) / 10000)).getD 0) := by
      simp only [Option.getD_some]
      norm_num
    rw [if_neg hle]
    simp only [Option.getD_some]
    have hm : (6667 / 10000 : ℚ) - 95 / 100 = -2833 / 10000 := by norm_num
    rw [hm, round4_neg2833]
  refine ⟨by decide, by decide, by decide, by decide, by decide, by decide,
    by decide, by decide, by decide, hprec, hrec, hf1, ?_, ?_⟩
  · rw [hcheck]
  · rw [hcheck]
